import Mathlib

/-!
Shallow embedding of `src/index.js` of nfj-server: the webhook
verifier/reconciler, the translation fallback chain, the certificate
renderer and the registration/profile endpoints, together with the
storage layer they talk to.
-/

namespace NfjServer

/-! ## Data model (spec §3, tables from §6) -/

/-- A row of the `users` table: `(id, email unique, points, level, is_premium)`. -/
structure User where
  id : String
  email : String
  points : Int
  level : Int
  isPremium : Bool
deriving DecidableEq, Repr

/-- A row of the `purchases` table:
`(user_id nullable, provider, provider_id, amount, currency)`. -/
structure Purchase where
  userId : Option String
  provider : String
  providerId : String
  amount : Int
  currency : String
deriving DecidableEq, Repr

/-- The persistent store: the two tables. -/
structure Store where
  users : List User
  purchases : List Purchase
deriving DecidableEq, Repr

/-- Number of ledger rows with the given `(provider, provider_id)` pair. -/
def ledgerCount (st : Store) (prov pid : String) : Nat :=
  (st.purchases.filter (fun p => p.provider == prov && p.providerId == pid)).length

/-- Invariant of spec §3: the ledger never holds two rows with the same
`(provider, providerId)` pair. -/
def NoDupKeys (st : Store) : Prop :=
  ∀ prov pid, ledgerCount st prov pid ≤ 1

/-- Statement `UPDATE users SET is_premium = true WHERE id = $1` (index.js line 70). -/
def updatePremium (st : Store) (uid : String) : Store :=
  { st with
    users := st.users.map (fun u => if u.id == uid then { u with isPremium := true } else u) }

/-- Modelled from the spec: `db.js` is not under `src/`, so the `purchases`
schema is taken from spec §3/§6, which declare a uniqueness constraint on
`(provider, providerId)`.  The plain `INSERT` of index.js line 71 therefore
appends the row when the key is fresh and raises a constraint error
(`Except.error ()`) on a duplicate key. -/
def insertPurchase (st : Store) (p : Purchase) : Except Unit Store :=
  if st.purchases.any (fun q => q.provider == p.provider && q.providerId == p.providerId) then
    Except.error ()
  else
    Except.ok { st with purchases := st.purchases ++ [p] }

/-! ## Webhook verifier and reconciler (index.js lines 56–75) -/

/-- The `checkout.session.completed` payload fields the handler reads. -/
structure Session where
  id : String
  metadataUserId : Option String
  amount_total : Option Int
  currency : Option String
deriving DecidableEq, Repr

/-- A verified Stripe event: the completion event that drives mutation, or
any other event type, which is acknowledged without touching storage. -/
inductive Event where
  | completed (sess : Session)
  | other (type : String)
deriving DecidableEq, Repr

/-- The HTTP response of the webhook endpoint: a 400 with a message, or the
`received: true` acknowledgement. -/
inductive WebhookResp where
  | webhookError (msg : String)
  | received
deriving DecidableEq, Repr

/-- HTTP status of a webhook response. -/
def WebhookResp.status : WebhookResp → Nat
  | .webhookError _ => 400
  | .received => 200

/-- JS truthiness of `session.metadata?.userId` (line 68/70): a missing or
empty string is falsy, so `userId || null` stores NULL for it. -/
def sessUid (sess : Session) : Option String :=
  match sess.metadataUserId with
  | some s => if s == "" then none else some s
  | none => none

/-- Expression `session.amount_total || 499`: JS `||` replaces `null`/`undefined`/`0`. -/
def jsOrInt (o : Option Int) (d : Int) : Int :=
  match o with
  | some a => if a == 0 then d else a
  | none => d

/-- Expression `session.currency || "eur"` (the source writes the literal with
single quotes): JS `||` replaces `null`/`undefined`/`""`. -/
def jsOrStr (o : Option String) (d : String) : String :=
  match o with
  | some s => if s == "" then d else s
  | none => d

/-- The ledger row built by index.js line 71 for a completion event. -/
def sessionPurchase (sess : Session) : Purchase :=
  { userId := sessUid sess
    provider := "stripe"
    providerId := sess.id
    amount := jsOrInt sess.amount_total 499
    currency := jsOrStr sess.currency "eur" }

/-- One atomic storage statement issued by the webhook apply step. -/
inductive DbOp where
  | upd (uid : String)
  | ins (p : Purchase)
deriving DecidableEq, Repr

/-- Execute one storage statement; a constraint error on the insert is
caught by the handler `catch` (line 72), leaving the store unchanged. -/
def runOp (st : Store) : DbOp → Store
  | .upd u => updatePremium st u
  | .ins p =>
    match insertPurchase st p with
    | Except.ok st1 => st1
    | Except.error _ => st

/-- Execute a sequence of storage statements (the storage engine serializes
individual statements, whichever request issued them). -/
def runOps (st : Store) : List DbOp → Store
  | [] => st
  | op :: rest => runOps (runOp st op) rest

/-- The list `ops` is an interleaving of the statement sequences `l` and `r`: the
order within each delivery is kept, but the storage engine may serve the
statements of the two concurrent deliveries in any relative order. -/
inductive Interleave : List DbOp → List DbOp → List DbOp → Prop where
  | nil : Interleave [] [] []
  | left {l r t : List DbOp} (op : DbOp) :
      Interleave l r t → Interleave (op :: l) r (op :: t)
  | right {l r t : List DbOp} (op : DbOp) :
      Interleave l r t → Interleave l (op :: r) (op :: t)

/-- The storage statements one successful delivery of a completion event
issues, in order (lines 70–71). -/
def deliveryOps (sess : Session) : List DbOp :=
  (match sessUid sess with
   | some u => [DbOp.upd u]
   | none => []) ++ [DbOp.ins (sessionPurchase sess)]

/-- The apply step of the webhook handler (lines 66–73).  `updOk` and
`insOk` inject external storage failures: a failing statement throws, is
caught by the `catch`, and any statement after it is skipped. -/
def webhookApply (st : Store) (sess : Session) (updOk insOk : Bool) : Store :=
  match sessUid sess with
  | some u =>
    if updOk then
      let st1 := updatePremium st u
      if insOk then runOp st1 (DbOp.ins (sessionPurchase sess)) else st1
    else st
  | none =>
    if insOk then runOp st (DbOp.ins (sessionPurchase sess)) else st

/-- The whole `POST /webhook` handler (lines 56–75).  Signature
verification (`stripe.webhooks.constructEvent`, an external call) is
modelled by its outcome `verif`: an event on success, the thrown error
message on any failure (bad signature, missing secret, malformed header,
Stripe not configured). -/
def webhook (st : Store) (verif : Except String Event) (updOk insOk : Bool) :
    Store × WebhookResp :=
  match verif with
  | Except.error msg => (st, WebhookResp.webhookError ("Webhook Error: " ++ msg))
  | Except.ok ev =>
    match ev with
    | Event.completed sess => (webhookApply st sess updOk insOk, WebhookResp.received)
    | Event.other _ => (st, WebhookResp.received)

/-- Endpoint `GET /api/me/:id` (lines 101–104): first row with the given id, or null. -/
def apiMe (st : Store) (i : String) : Option User :=
  st.users.find? (fun u => u.id == i)

/-! ## Translation fallback chain (index.js lines 19–38) -/

/-- Outcome of one upstream adapter call: a usable payload, a payload that
lacks the expected translation field, or a thrown error (network failure,
non-2xx axios response, ...). -/
inductive AdapterOutcome where
  | success (text : String)
  | malformed
  | thrown (msg : String)
deriving DecidableEq, Repr

/-- The environment configuration the translate handler reads. -/
structure TranslateConfig where
  deeplKey : Option String
  libreUrl : Option String
deriving DecidableEq, Repr

/-- JS truthiness of an environment variable: set and non-empty. -/
def isConfigured (o : Option String) : Bool :=
  match o with
  | some s => s != ""
  | none => false

/-- The request body fields `{q, source, target}`. -/
structure TranslateReq where
  q : String
  source : String
  target : String
deriving DecidableEq, Repr

/-- The HTTP response of the translate endpoint. -/
inductive TranslateResp where
  | badRequest
  | okJson (translatedText : String) (provider : String)
  | translationFailed
deriving DecidableEq, Repr

/-- Fallback text of line 33: the original text behind a fixed marker. -/
def fallbackText (q : String) : String :=
  "(Übersetzung benötigt API) " ++ q

/-- Second half of the `try` block: the LibreTranslate attempt (lines
29–32) then the deterministic fallback (line 33).  An `Except.error`
models a thrown exception escaping to the `catch`. -/
def libreStep (cfg : TranslateConfig) (q : String) (lt : AdapterOutcome) :
    Except String TranslateResp :=
  if isConfigured cfg.libreUrl then
    match lt with
    | AdapterOutcome.thrown m => Except.error m
    | AdapterOutcome.success t => Except.ok (TranslateResp.okJson t "libre")
    | AdapterOutcome.malformed => Except.ok (TranslateResp.okJson (fallbackText q) "none")
  else Except.ok (TranslateResp.okJson (fallbackText q) "none")

/-- Body of the `try` block (lines 23–33): DeepL first, then LibreTranslate,
then the fallback.  A well-formed payload returns immediately; a malformed
payload falls through; a throw escapes the whole block. -/
def tryAdapters (cfg : TranslateConfig) (q : String) (dl lt : AdapterOutcome) :
    Except String TranslateResp :=
  if isConfigured cfg.deeplKey then
    match dl with
    | AdapterOutcome.thrown m => Except.error m
    | AdapterOutcome.success t => Except.ok (TranslateResp.okJson t "deepl")
    | AdapterOutcome.malformed => libreStep cfg q lt
  else libreStep cfg q lt

/-- The whole `POST /api/translate` handler (lines 19–38): validation,
the adapter chain, and the `catch` that maps any thrown error to the 500
`Translation failed` response. -/
def translate (cfg : TranslateConfig) (req : TranslateReq) (dl lt : AdapterOutcome) :
    TranslateResp :=
  if req.q == "" || req.source == "" || req.target == "" then
    TranslateResp.badRequest
  else
    match tryAdapters cfg req.q dl lt with
    | Except.ok r => r
    | Except.error _ => TranslateResp.translationFailed

/-! ## Certificate renderer (index.js lines 77–93) -/

/-- The fixed 20-entry title table of line 80. -/
def TITLES : List String :=
  ["Ruderer", "Bootsmann", "Wächter", "Seefahrer", "Schildträger", "Seemann",
   "Wikingerjung", "Skalde", "Krieger", "Navigator", "Fährmann",
   "Stammesmitglied", "Hafenmeister", "Herscher", "Schiffbauer", "Häuptling",
   "Jarl", "Erzjäger", "Schildoberst", "König"]

/-- Clamp `Math.max(1, Math.min(20, level))` of line 79. -/
def clampLevel (level : Int) : Int :=
  max 1 (min 20 level)

/-- The observable parts of the certificate response: the two headers and
the rendered text lines (the date line is real time and out of model). -/
structure CertResponse where
  contentType : String
  contentDisposition : String
  headerLine : String
  titleLine : String
  nameLine : String
deriving DecidableEq, Repr

/-- The `GET /api/certificate/:name/:level` handler (lines 77–93). -/
def certificate (name : String) (level : Int) : CertResponse :=
  let titleIndex := clampLevel level
  { contentType := "application/pdf"
    contentDisposition :=
      "attachment; filename=\"nfj_certificate_level_" ++ toString titleIndex ++ ".pdf\""
    headerLine := "Norwegisch für Jedermann"
    titleLine := "Zertifikat: Level " ++ toString titleIndex ++ " — "
      ++ ((TITLES.get? (titleIndex - 1).toNat).getD "")
    nameLine := "Für: " ++ name }

/-! ## Registration (index.js lines 95–99) -/

/-- Modelled from the spec: `db.js` is not under `src/`, so the `users`
schema comes from spec §3/§6 — `email` is unique, `id` is an opaque
store-generated identifier (modelled as fresh from the row count), and a
new row starts with points 0, level 1 and the premium flag unset. -/
def freshUser (st : Store) (email : String) : User :=
  { id := "id" ++ toString st.users.length
    email := email
    points := 0
    level := 1
    isPremium := false }

/-- Statement `INSERT INTO users (email) VALUES ($1) ON CONFLICT (email) DO UPDATE
SET email = EXCLUDED.email RETURNING ...` (line 98): insert a fresh row,
or on an email conflict rewrite the email of the existing row to itself and
return that row. -/
def register (st : Store) (email : String) : Store × User :=
  match st.users.find? (fun u => u.email == email) with
  | some u =>
    ({ st with
       users := st.users.map (fun v => if v.email == email then { v with email := email } else v) },
     { u with email := email })
  | none =>
    let nu := freshUser st email
    ({ st with users := st.users ++ [nu] }, nu)

/-! ## Basic storage lemmas -/

theorem purchases_updatePremium (st : Store) (u : String) :
    (updatePremium st u).purchases = st.purchases := rfl

theorem users_runOp_ins (st : Store) (p : Purchase) :
    (runOp st (DbOp.ins p)).users = st.users := by
  by_cases h :
      (st.purchases.any (fun q => q.provider == p.provider && q.providerId == p.providerId))
        = true <;>
    simp [runOp, insertPurchase, h]

theorem ledgerCount_eq_zero_iff (st : Store) (prov pid : String) :
    ledgerCount st prov pid = 0 ↔
      st.purchases.any (fun q => q.provider == prov && q.providerId == pid) = false := by
  simp [ledgerCount, List.length_eq_zero, List.filter_eq_nil_iff, List.any_eq_false]

theorem runOp_ins_fresh (st : Store) (p : Purchase)
    (h : ledgerCount st p.provider p.providerId = 0) :
    runOp st (DbOp.ins p) = { st with purchases := st.purchases ++ [p] } := by
  have hany := (ledgerCount_eq_zero_iff st p.provider p.providerId).mp h
  simp [runOp, insertPurchase, hany]

theorem runOp_ins_dup (st : Store) (p : Purchase)
    (h : ledgerCount st p.provider p.providerId ≠ 0) :
    runOp st (DbOp.ins p) = st := by
  by_cases hany :
      (st.purchases.any (fun q => q.provider == p.provider && q.providerId == p.providerId))
        = true
  · simp [runOp, insertPurchase, hany]
  · exact absurd ((ledgerCount_eq_zero_iff st p.provider p.providerId).mpr
      (Bool.not_eq_true _ ▸ hany)) h

theorem ledgerCount_append (st : Store) (p : Purchase) (prov pid : String) :
    ledgerCount { st with purchases := st.purchases ++ [p] } prov pid
      = ledgerCount st prov pid
        + (if p.provider == prov && p.providerId == pid then 1 else 0) := by
  simp only [ledgerCount, List.filter_append, List.length_append]
  by_cases h : (p.provider == prov && p.providerId == pid) = true <;>
    simp [List.filter_cons, h]

/-! ## Claim theorems: webhook error handling -/

/-- C1: when signature verification fails with reason `msg`, the webhook
endpoint responds 400 with the reason embedded and the store is untouched
(no ledger row, no premium-flag change). -/
theorem webhook_fails_closed (st : Store) (msg : String) (updOk insOk : Bool) :
    (webhook st (Except.error msg) updOk insOk).2.status = 400
    ∧ (webhook st (Except.error msg) updOk insOk).2
        = WebhookResp.webhookError ("Webhook Error: " ++ msg)
    ∧ (webhook st (Except.error msg) updOk insOk).1 = st :=
  ⟨rfl, rfl, rfl⟩

/-- C3: every verified event is acknowledged with `received: true`,
whatever the storage outcome of the apply step. -/
theorem webhook_always_acknowledges (st : Store) (ev : Event) (updOk insOk : Bool) :
    (webhook st (Except.ok ev) updOk insOk).2 = WebhookResp.received := by
  cases ev <;> rfl

/-- C4 counterexample: a delivery whose premium update succeeds but whose
ledger insert fails leaves the premium flag set with no ledger row — the
two effects are not atomic. -/
theorem webhook_atomicity_cex :
    (apiMe (webhook (Store.mk [User.mk "u1" "a@b" 0 1 false] [])
        (Except.ok (Event.completed (Session.mk "cs_1" (some "u1") none none)))
        true false).1 "u1").map User.isPremium = some true
    ∧ (webhook (Store.mk [User.mk "u1" "a@b" 0 1 false] [])
        (Except.ok (Event.completed (Session.mk "cs_1" (some "u1") none none)))
        true false).1.purchases = [] := by
  decide

/-- C4 (amended): the premium update and the ledger insert are two separate
storage statements, not one transaction; a delivery whose update succeeds
and whose insert then fails ends with exactly the premium update applied,
the ledger unchanged, and the event still acknowledged. -/
theorem webhook_apply_two_statements (st : Store) (sess : Session) (u : String)
    (h : sessUid sess = some u) :
    (webhook st (Except.ok (Event.completed sess)) true false).1 = updatePremium st u
    ∧ (webhook st (Except.ok (Event.completed sess)) true false).1.purchases = st.purchases
    ∧ (webhook st (Except.ok (Event.completed sess)) true false).2 = WebhookResp.received := by
  simp [webhook, webhookApply, h, purchases_updatePremium]

/-- Witness for the amended C4 theorem at a concrete store and session. -/
theorem webhook_apply_two_statements_witness :
    (webhook (Store.mk [User.mk "u1" "a@b" 0 1 false] [])
        (Except.ok (Event.completed (Session.mk "cs_1" (some "u1") none none)))
        true false).1
      = updatePremium (Store.mk [User.mk "u1" "a@b" 0 1 false] []) "u1"
    ∧ (webhook (Store.mk [User.mk "u1" "a@b" 0 1 false] [])
        (Except.ok (Event.completed (Session.mk "cs_1" (some "u1") none none)))
        true false).1.purchases = (Store.mk [User.mk "u1" "a@b" 0 1 false] []).purchases
    ∧ (webhook (Store.mk [User.mk "u1" "a@b" 0 1 false] [])
        (Except.ok (Event.completed (Session.mk "cs_1" (some "u1") none none)))
        true false).2 = WebhookResp.received :=
  webhook_apply_two_statements _ _ "u1" (by decide)

/-! ## Deduplication invariant machinery -/

theorem ledgerCount_runOp_stay_one (st : Store) (op : DbOp) (prov pid : String)
    (h : ledgerCount st prov pid = 1) :
    ledgerCount (runOp st op) prov pid = 1 := by
  cases op with
  | upd u => exact h
  | ins p =>
    rcases Nat.eq_zero_or_pos (ledgerCount st p.provider p.providerId) with h0 | hpos
    · rw [runOp_ins_fresh st p h0, ledgerCount_append]
      by_cases hm : (p.provider == prov && p.providerId == pid) = true
      · have h1 : p.provider = prov ∧ p.providerId = pid := by
          simpa [Bool.and_eq_true, beq_iff_eq] using hm
        rw [h1.1, h1.2] at h0
        omega
      · simp [hm, h]
    · rw [runOp_ins_dup st p (Nat.pos_iff_ne_zero.mp hpos)]
      exact h

theorem ledgerCount_runOps_stay_one (st : Store) (ops : List DbOp) (prov pid : String)
    (h : ledgerCount st prov pid = 1) :
    ledgerCount (runOps st ops) prov pid = 1 := by
  induction ops generalizing st with
  | nil => exact h
  | cons op rest ih => exact ih _ (ledgerCount_runOp_stay_one st op prov pid h)

theorem ledgerCount_runOps_one (st : Store) (ops : List DbOp) (prov pid : String)
    (hkeys : ∀ p, DbOp.ins p ∈ ops → p.provider = prov ∧ p.providerId = pid)
    (hins : ∃ p, DbOp.ins p ∈ ops)
    (h0 : ledgerCount st prov pid = 0) :
    ledgerCount (runOps st ops) prov pid = 1 := by
  induction ops generalizing st with
  | nil =>
    rcases hins with ⟨p, hp⟩
    exact absurd hp (List.not_mem_nil _)
  | cons op rest ih =>
    cases op with
    | upd u =>
      show ledgerCount (runOps (runOp st (DbOp.upd u)) rest) prov pid = 1
      refine ih (runOp st (DbOp.upd u)) ?_ ?_ h0
      · intro p hp
        exact hkeys p (List.mem_cons_of_mem _ hp)
      · rcases hins with ⟨p, hp⟩
        rcases List.mem_cons.mp hp with heq | hmem
        · exact absurd heq (by simp)
        · exact ⟨p, hmem⟩
    | ins p =>
      have hk := hkeys p (List.mem_cons_self _ _)
      have h0p : ledgerCount st p.provider p.providerId = 0 := by
        rw [hk.1, hk.2]
        exact h0
      show ledgerCount (runOps (runOp st (DbOp.ins p)) rest) prov pid = 1
      apply ledgerCount_runOps_stay_one
      rw [runOp_ins_fresh st p h0p, ledgerCount_append]
      have hm : (p.provider == prov && p.providerId == pid) = true := by
        simp [hk.1, hk.2]
      simp [hm, h0]

theorem noDupKeys_runOp (st : Store) (op : DbOp) (hnd : NoDupKeys st) :
    NoDupKeys (runOp st op) := by
  cases op with
  | upd u => exact hnd
  | ins p =>
    rcases Nat.eq_zero_or_pos (ledgerCount st p.provider p.providerId) with h0 | hpos
    · intro prov pid
      rw [runOp_ins_fresh st p h0, ledgerCount_append]
      by_cases hm : (p.provider == prov && p.providerId == pid) = true
      · have h1 : p.provider = prov ∧ p.providerId = pid := by
          simpa [Bool.and_eq_true, beq_iff_eq] using hm
        have h0x : ledgerCount st prov pid = 0 := by
          rw [← h1.1, ← h1.2]
          exact h0
        simp [hm, h0x]
      · simpa [hm] using hnd prov pid
    · rw [runOp_ins_dup st p (Nat.pos_iff_ne_zero.mp hpos)]
      exact hnd

theorem noDupKeys_runOps (st : Store) (ops : List DbOp) (hnd : NoDupKeys st) :
    NoDupKeys (runOps st ops) := by
  induction ops generalizing st with
  | nil => exact hnd
  | cons op rest ih => exact ih _ (noDupKeys_runOp st op hnd)

theorem noDupKeys_empty : NoDupKeys (Store.mk [] []) := by
  intro prov pid
  simp [ledgerCount]

/-! ## Interleaving lemmas -/

theorem interleave_mem {l r t : List DbOp} (h : Interleave l r t) :
    ∀ a, a ∈ t → a ∈ l ∨ a ∈ r := by
  induction h with
  | nil =>
    intro a ha
    exact absurd ha (List.not_mem_nil _)
  | left op hil ih =>
    intro a ha
    rcases List.mem_cons.mp ha with heq | hmem
    · exact Or.inl (heq ▸ List.mem_cons_self _ _)
    · rcases ih a hmem with h1 | h2
      · exact Or.inl (List.mem_cons_of_mem _ h1)
      · exact Or.inr h2
  | right op hil ih =>
    intro a ha
    rcases List.mem_cons.mp ha with heq | hmem
    · exact Or.inr (heq ▸ List.mem_cons_self _ _)
    · rcases ih a hmem with h1 | h2
      · exact Or.inl h1
      · exact Or.inr (List.mem_cons_of_mem _ h2)

theorem interleave_mem_left {l r t : List DbOp} (h : Interleave l r t) :
    ∀ a, a ∈ l → a ∈ t := by
  induction h with
  | nil =>
    intro a ha
    exact absurd ha (List.not_mem_nil _)
  | left op hil ih =>
    intro a ha
    rcases List.mem_cons.mp ha with heq | hmem
    · exact heq ▸ List.mem_cons_self _ _
    · exact List.mem_cons_of_mem _ (ih a hmem)
  | right op hil ih =>
    intro a ha
    exact List.mem_cons_of_mem _ (ih a ha)

theorem interleave_append (l r : List DbOp) : Interleave l r (l ++ r) := by
  induction l with
  | nil =>
    show Interleave [] r r
    induction r with
    | nil => exact Interleave.nil
    | cons a r ih => exact Interleave.right a ih
  | cons a l ih => exact Interleave.left a ih

/-! ## Delivery facts -/

theorem deliveryOps_ins_keys (sess : Session) (p : Purchase)
    (hp : DbOp.ins p ∈ deliveryOps sess) :
    p.provider = "stripe" ∧ p.providerId = sess.id := by
  cases hs : sessUid sess with
  | some u =>
    simp [deliveryOps, hs] at hp
    subst hp
    exact ⟨rfl, rfl⟩
  | none =>
    simp [deliveryOps, hs] at hp
    subst hp
    exact ⟨rfl, rfl⟩

theorem deliveryOps_has_ins (sess : Session) :
    DbOp.ins (sessionPurchase sess) ∈ deliveryOps sess := by
  unfold deliveryOps
  cases sessUid sess <;> simp

/-- Sanity: with storage up, the webhook apply step issues exactly the
statements of `deliveryOps`. -/
theorem webhookApply_eq_runOps (st : Store) (sess : Session) :
    webhookApply st sess true true = runOps st (deliveryOps sess) := by
  cases hs : sessUid sess with
  | some u =>
    simp only [webhookApply, deliveryOps, hs]
    rfl
  | none =>
    simp only [webhookApply, deliveryOps, hs]
    rfl

/-- C2: for any interleaving of the statements of two concurrent
deliveries of the same validly-signed completion event, a ledger that
starts without that session id ends with exactly one row for it, and the
`(provider, providerId)`-uniqueness invariant is preserved. -/
theorem webhook_idempotent_dedup (st : Store) (sess : Session) (ops : List DbOp)
    (hil : Interleave (deliveryOps sess) (deliveryOps sess) ops)
    (h0 : ledgerCount st "stripe" sess.id = 0)
    (hnd : NoDupKeys st) :
    ledgerCount (runOps st ops) "stripe" sess.id = 1 ∧ NoDupKeys (runOps st ops) := by
  constructor
  · refine ledgerCount_runOps_one st ops _ _ ?_ ?_ h0
    · intro p hp
      rcases interleave_mem hil _ hp with h1 | h2
      · exact deliveryOps_ins_keys sess p h1
      · exact deliveryOps_ins_keys sess p h2
    · exact ⟨sessionPurchase sess, interleave_mem_left hil _ (deliveryOps_has_ins sess)⟩
  · exact noDupKeys_runOps st ops hnd

/-- Witness for C2: the sequential redelivery of a concrete completion
event, starting from the empty store. -/
theorem webhook_idempotent_dedup_witness :
    ledgerCount
        (runOps (Store.mk [] [])
          (deliveryOps (Session.mk "cs_1" (some "u1") none none)
            ++ deliveryOps (Session.mk "cs_1" (some "u1") none none)))
        "stripe" "cs_1" = 1
    ∧ NoDupKeys
        (runOps (Store.mk [] [])
          (deliveryOps (Session.mk "cs_1" (some "u1") none none)
            ++ deliveryOps (Session.mk "cs_1" (some "u1") none none))) :=
  webhook_idempotent_dedup _ _ _ (interleave_append _ _) (by decide) noDupKeys_empty

/-! ## Premium flag and profile read -/

theorem find?_map_premium (l : List User) (U : String)
    (h : (l.find? (fun u => u.id == U)).isSome = true) :
    ((l.map (fun u => if u.id == U then { u with isPremium := true } else u)).find?
        (fun u => u.id == U)).map User.isPremium = some true := by
  induction l with
  | nil => simp [List.find?] at h
  | cons u l ih =>
    by_cases hc : (u.id == U) = true
    · simp [List.find?, List.map_cons, if_pos hc, hc]
    · have hcf : (u.id == U) = false := by
        simpa using hc
      simp only [List.map_cons, if_neg hc]
      simp only [List.find?, hcf] at h ⊢
      exact ih h

/-- C5: after a verified completion event whose session metadata carries
the id `U` of an existing user, reading `/api/me/U` shows the premium flag
true (whatever the ledger-insert outcome), and repeating the premium-flag
update is a no-op. -/
theorem premium_after_completion (st : Store) (sess : Session) (U : String) (insOk : Bool)
    (h1 : sessUid sess = some U)
    (h2 : (apiMe st U).isSome = true) :
    ((apiMe (webhook st (Except.ok (Event.completed sess)) true insOk).1 U).map User.isPremium
        = some true)
    ∧ updatePremium (updatePremium st U) U = updatePremium st U := by
  constructor
  · have husers : (webhook st (Except.ok (Event.completed sess)) true insOk).1.users
        = (updatePremium st U).users := by
      cases insOk with
      | false => simp [webhook, webhookApply, h1]
      | true => simp [webhook, webhookApply, h1, users_runOp_ins]
    simp only [apiMe] at h2 ⊢
    rw [husers]
    simp only [updatePremium]
    exact find?_map_premium st.users U h2
  · refine congrArg (fun l => { st with users := l }) ?_
    simp only [updatePremium]
    rw [List.map_map]
    apply List.map_congr_left
    intro u _
    by_cases hc : (u.id == U) = true
    · simp [Function.comp, hc]
    · simp [Function.comp, hc]

/-- Witness for C5 at a concrete store, user and session. -/
theorem premium_after_completion_witness :
    ((apiMe (webhook (Store.mk [User.mk "u1" "a@b" 0 1 false] [])
        (Except.ok (Event.completed (Session.mk "cs_1" (some "u1") none none)))
        true true).1 "u1").map User.isPremium = some true)
    ∧ updatePremium (updatePremium (Store.mk [User.mk "u1" "a@b" 0 1 false] []) "u1") "u1"
      = updatePremium (Store.mk [User.mk "u1" "a@b" 0 1 false] []) "u1" :=
  premium_after_completion _ _ "u1" true (by decide) (by decide)

/-- C10: a verified completion event with no `amount_total`, no `currency`
and an absent/empty `metadata.userId` still appends a ledger row, with the
defaults 499 / "eur" and a NULL user reference. -/
theorem ledger_defaults (st : Store) (sess : Session)
    (hA : sess.amount_total = none) (hC : sess.currency = none)
    (hU : sess.metadataUserId = none ∨ sess.metadataUserId = some "")
    (h0 : ledgerCount st "stripe" sess.id = 0) :
    (webhook st (Except.ok (Event.completed sess)) true true).1.purchases
      = st.purchases ++ [Purchase.mk none "stripe" sess.id 499 "eur"] := by
  have huid : sessUid sess = none := by
    rcases hU with h | h <;> simp [sessUid, h]
  have hp : sessionPurchase sess = Purchase.mk none "stripe" sess.id 499 "eur" := by
    simp [sessionPurchase, huid, hA, hC, jsOrInt, jsOrStr]
  have h0p :
      ledgerCount st (sessionPurchase sess).provider (sessionPurchase sess).providerId = 0 := by
    rw [hp]
    exact h0
  simp only [webhook, webhookApply, huid]
  show (runOp st (DbOp.ins (sessionPurchase sess))).purchases
      = st.purchases ++ [Purchase.mk none "stripe" sess.id 499 "eur"]
  rw [runOp_ins_fresh st _ h0p, hp]

/-- Witness for C10: delivery of a bare completion event to the empty
store. -/
theorem ledger_defaults_witness :
    (webhook (Store.mk [] [])
        (Except.ok (Event.completed (Session.mk "cs_2" none none none))) true true).1.purchases
      = [Purchase.mk none "stripe" "cs_2" 499 "eur"] :=
  ledger_defaults _ _ rfl rfl (Or.inl rfl) (by decide)

/-! ## Registration -/

theorem upsertMap_id (l : List User) (e : String) :
    l.map (fun v => if v.email == e then { v with email := e } else v) = l := by
  induction l with
  | nil => rfl
  | cons u l ih =>
    by_cases h : (u.email == e) = true
    · have he : u.email = e := by simpa using h
      simp only [List.map_cons, if_pos h, ih]
      rw [← he]
    · simp only [List.map_cons, if_neg h, ih]

/-- C9: registration is an idempotent upsert keyed by email — a second
registration of the same email returns the same user id and leaves the
store exactly as after the first (no second row; the email column is only
rewritten to itself). -/
theorem register_idempotent (st : Store) (e : String) :
    (register (register st e).1 e).2.id = (register st e).2.id
    ∧ (register (register st e).1 e).1 = (register st e).1 := by
  cases h : st.users.find? (fun u => u.email == e) with
  | some u =>
    have hst : (register st e).1 = st := by
      simp only [register, h]
      rw [upsertMap_id]
    rw [hst]
    exact ⟨rfl, hst⟩
  | none =>
    have hfind : ((st.users ++ [freshUser st e]).find? (fun u => u.email == e))
        = some (freshUser st e) := by
      rw [List.find?_append, h]
      simp [List.find?, freshUser]
    constructor
    · simp only [register, h, hfind]
    · simp only [register, h, hfind]
      rw [upsertMap_id]

/-! ## Translation fallback chain -/

/-- C6 counterexample: with both adapters configured, a *thrown* primary
adapter error escapes to the catch and yields the 500 `Translation failed`
response, even though the secondary would have succeeded — the soft
failure IS surfaced to the caller, so the claimed fall-through does not
hold for throws. -/
theorem translate_primary_throw_cex :
    translate (TranslateConfig.mk (some "k") (some "http://lt"))
        (TranslateReq.mk "Hello" "en" "de")
        (AdapterOutcome.thrown "boom") (AdapterOutcome.success "Hallo")
      = TranslateResp.translationFailed
    ∧ TranslateResp.translationFailed ≠ TranslateResp.okJson "Hallo" "libre" := by
  decide

/-- C6 (amended): only a primary adapter that returns a malformed/empty
payload *without throwing* falls through to the secondary, whose
translation is then returned; a thrown primary error instead surfaces as
the 500 `Translation failed` response. -/
theorem translate_fallthrough (k u t m : String) (lt : AdapterOutcome) (req : TranslateReq)
    (hk : k ≠ "") (hu : u ≠ "")
    (hq : req.q ≠ "") (hs : req.source ≠ "") (ht : req.target ≠ "") :
    translate (TranslateConfig.mk (some k) (some u)) req
        AdapterOutcome.malformed (AdapterOutcome.success t)
      = TranslateResp.okJson t "libre"
    ∧ translate (TranslateConfig.mk (some k) (some u)) req
        (AdapterOutcome.thrown m) lt
      = TranslateResp.translationFailed := by
  constructor <;>
    simp [translate, tryAdapters, libreStep, isConfigured, hk, hu, hq, hs, ht]

/-- Witness for the amended C6 theorem at concrete configuration, request
and outcomes. -/
theorem translate_fallthrough_witness :
    translate (TranslateConfig.mk (some "k") (some "http://lt"))
        (TranslateReq.mk "Hello" "en" "de")
        AdapterOutcome.malformed (AdapterOutcome.success "Hallo")
      = TranslateResp.okJson "Hallo" "libre"
    ∧ translate (TranslateConfig.mk (some "k") (some "http://lt"))
        (TranslateReq.mk "Hello" "en" "de")
        (AdapterOutcome.thrown "boom") AdapterOutcome.malformed
      = TranslateResp.translationFailed :=
  translate_fallthrough "k" "http://lt" "Hallo" "boom" AdapterOutcome.malformed
    (TranslateReq.mk "Hello" "en" "de")
    (by decide) (by decide) (by decide) (by decide) (by decide)

/-- C7 counterexample: with only the primary adapter configured and that
adapter failing by *throwing* (a soft failure in the taxonomy of the spec), the
response is the 500 `Translation failed`, not the deterministic
fallback. -/
theorem translate_fallback_cex :
    translate (TranslateConfig.mk (some "k") none)
        (TranslateReq.mk "Hello" "en" "de")
        (AdapterOutcome.thrown "boom") AdapterOutcome.malformed
      = TranslateResp.translationFailed
    ∧ TranslateResp.translationFailed
        ≠ TranslateResp.okJson (fallbackText "Hello") "none" := by
  decide

/-- C7 (amended): if no adapter is configured, or every configured adapter
fails by returning a malformed/empty payload *without throwing*, the
response is the deterministic fallback — the original text behind the
fixed marker, tagged provider "none". -/
theorem translate_fallback_when_no_adapter (cfg : TranslateConfig) (req : TranslateReq)
    (dl lt : AdapterOutcome)
    (hq : req.q ≠ "") (hs : req.source ≠ "") (ht : req.target ≠ "")
    (hd : isConfigured cfg.deeplKey = false ∨ dl = AdapterOutcome.malformed)
    (hl : isConfigured cfg.libreUrl = false ∨ lt = AdapterOutcome.malformed) :
    translate cfg req dl lt = TranslateResp.okJson (fallbackText req.q) "none" := by
  have hlib : libreStep cfg req.q lt = Except.ok (TranslateResp.okJson (fallbackText req.q) "none") := by
    rcases hl with h | h
    · simp [libreStep, h]
    · subst h
      by_cases hc : isConfigured cfg.libreUrl = true <;> simp [libreStep, hc]
  have htry : tryAdapters cfg req.q dl lt
      = Except.ok (TranslateResp.okJson (fallbackText req.q) "none") := by
    rcases hd with h | h
    · simp [tryAdapters, h, hlib]
    · subst h
      by_cases hc : isConfigured cfg.deeplKey = true <;> simp [tryAdapters, hc, hlib]
  simp [translate, htry, hq, hs, ht]

/-- Witness for the amended C7 theorem: no adapter configured. -/
theorem translate_fallback_when_no_adapter_witness :
    translate (TranslateConfig.mk none none) (TranslateReq.mk "Hello" "en" "de")
        AdapterOutcome.malformed AdapterOutcome.malformed
      = TranslateResp.okJson (fallbackText "Hello") "none" :=
  translate_fallback_when_no_adapter _ _ _ _
    (by decide) (by decide) (by decide) (Or.inl rfl) (Or.inl rfl)

/-! ## Certificate renderer -/

/-- C8 counterexample: the attachment filename carries an `nfj_` prefix —
`nfj_certificate_level_1.pdf` for `/api/certificate/Erik/0` — not the
claimed `certificate_level_1.pdf`. -/
theorem certificate_filename_cex :
    (certificate "Erik" 0).contentDisposition
      = "attachment; filename=\"nfj_certificate_level_1.pdf\""
    ∧ (certificate "Erik" 0).contentDisposition
      ≠ "attachment; filename=\"certificate_level_1.pdf\"" := by
  decide

/-- C8 (amended): the level is clamped to [1, 20] (0 ↦ 1, 99 ↦ 20), the
title is the fixed table entry at index level−1, the Content-Type is
application/pdf and the Content-Disposition is an attachment whose
filename `nfj_certificate_level_<N>.pdf` encodes the clamped level. -/
theorem certificate_clamps (name : String) (lvl : Int) :
    1 ≤ clampLevel lvl ∧ clampLevel lvl ≤ 20
    ∧ (certificate name lvl).contentType = "application/pdf"
    ∧ (certificate name lvl).contentDisposition =
        "attachment; filename=\"nfj_certificate_level_" ++ toString (clampLevel lvl) ++ ".pdf\""
    ∧ (certificate name lvl).titleLine =
        "Zertifikat: Level " ++ toString (clampLevel lvl) ++ " — "
          ++ ((TITLES.get? (clampLevel lvl - 1).toNat).getD "")
    ∧ clampLevel 0 = 1 ∧ clampLevel 99 = 20 := by
  refine ⟨le_max_left 1 _, max_le (by norm_num) (min_le_left 20 lvl), rfl, rfl, rfl, rfl, rfl⟩

end NfjServer
